import Mathlib

/-!
Formal model of the ShipsRadar frontend service layer.

The definitions below are shallow embeddings of the TypeScript sources:
JavaScript numbers are modelled as rationals, optional fields as Option,
thrown errors as Except, and the module-level weather cache as explicit
state passed through each operation together with the current clock value
(Date.now, in milliseconds).
-/

namespace ShipsRadar

/-! ### Data model, from src/frontend/src/types/index.ts -/

/-- Geographic coordinates, interface Coordinates. -/
structure Coordinates where
  lng : ℚ
  lat : ℚ
deriving DecidableEq, Repr

/-- Weather point data, interface WeatherPoint.  Fields not consulted by the
modelled components (swell, precipitation, visibility, ...) are omitted. -/
structure WeatherPoint where
  timestamp : String := ""
  wind_speed : Option ℚ := none
  wind_direction : Option ℚ := none
  wave_height : Option ℚ := none
  wave_direction : Option ℚ := none
  current_speed : Option ℚ := none
  pressure : Option ℚ := none
deriving DecidableEq, Repr

/-- A single waypoint on a route, interface Waypoint. -/
structure Waypoint where
  id : ℚ
  coordinates : Coordinates
  eta : String
  distance_from_prev : ℚ
  cumulative_distance : ℚ
  weather : Option WeatherPoint := none
  is_adjusted : Bool := false
  warnings : List String := []
deriving DecidableEq, Repr

/-- Route calculation request body, interface RouteRequest. -/
structure RouteRequest where
  start : Coordinates
  «end» : Coordinates
  departure_time : String
  vessel_speed : ℚ
  waypoints_count : ℕ
  avoid_extreme_weather : Bool
  extreme_wind_threshold : ℚ
  extreme_wave_threshold : ℚ
deriving DecidableEq, Repr

/-- Route summary statistics, interface RouteMetrics. -/
structure RouteMetrics where
  total_distance_nm : ℚ
  total_distance_km : ℚ
  estimated_duration_hours : ℚ
  departure_time : String
  arrival_time : String
  average_speed_knots : ℚ
  waypoints_adjusted : ℕ
  max_wind_speed : Option ℚ := none
  max_wave_height : Option ℚ := none
deriving DecidableEq, Repr

/-- Warning severity levels, the union type of RouteWarning.severity. -/
inductive Severity where
  | info
  | warning
  | danger
deriving DecidableEq, Repr

/-- Warning about route conditions, interface RouteWarning. -/
structure RouteWarning where
  severity : Severity
  waypoint_id : ℕ
  message : String
  parameter : String
  value : ℚ
deriving DecidableEq, Repr

/-- Complete route response, interface RouteResponse. -/
structure RouteResponse where
  request : RouteRequest
  waypoints : List Waypoint
  metrics : RouteMetrics
  warnings : List RouteWarning
  algorithm : String
  calculated_at : String
  calculation_time_ms : Option ℚ := none
deriving DecidableEq, Repr

/-! ### Weather layer service, from src/frontend/src/services/weatherApi.ts -/

/-- The layer_type union of WeatherLayerRequest. -/
inductive LayerType where
  | wind
  | waves
  | currents
  | temperature
deriving DecidableEq, Repr

/-- The string each LayerType renders to inside a template literal. -/
def LayerType.toKeyString : LayerType → String
  | .wind => "wind"
  | .waves => "waves"
  | .currents => "currents"
  | .temperature => "temperature"

/-- The resolution union of WeatherLayerRequest. -/
inductive Resolution where
  | low
  | medium
  | high
deriving DecidableEq, Repr

/-- The string each Resolution renders to inside a template literal. -/
def Resolution.toKeyString : Resolution → String
  | .low => "low"
  | .medium => "medium"
  | .high => "high"

/-- Weather layer request, interface WeatherLayerRequest.  The bbox tuple
[west, south, east, north] is modelled as a list of rationals. -/
structure WeatherLayerRequest where
  layer_type : LayerType
  bbox : List ℚ
  timestamp : Option String := none
  resolution : Option Resolution := none
deriving DecidableEq, Repr

/-- One data point of a weather layer, interface WeatherDataPoint. -/
structure WeatherDataPoint where
  lat : ℚ
  lng : ℚ
  speed : Option ℚ := none
  direction : Option ℚ := none
  u : Option ℚ := none
  v : Option ℚ := none
  gust : Option ℚ := none
  height : Option ℚ := none
  period : Option ℚ := none
  temperature : Option ℚ := none
  timestamp : String := ""
deriving DecidableEq, Repr

/-- The metadata object of WeatherLayerResponse. -/
structure LayerMetadata where
  resolution : Option String := none
  point_count : Option ℕ := none
  source : Option String := none
deriving DecidableEq, Repr

/-- Weather layer response, interface WeatherLayerResponse. -/
structure WeatherLayerResponse where
  layer_type : String
  bbox : List ℚ
  timestamp : String
  data_points : List WeatherDataPoint
  metadata : LayerMetadata := {}
deriving DecidableEq, Repr

/-- Error thrown by the weather service, class WeatherApiError. -/
structure WeatherApiError where
  message : String
  statusCode : Option ℕ := none
deriving DecidableEq, Repr

/-- WeatherLayerCache.makeKey: the template literal
layer_type + bbox.join + (timestamp or now) + (resolution or medium),
joined with underscores. -/
def makeKey (request : WeatherLayerRequest) : String :=
  LayerType.toKeyString request.layer_type ++ "_" ++
    String.intercalate (",") (request.bbox.map toString) ++ "_" ++
    (request.timestamp.getD ("now")) ++ "_" ++
    ((request.resolution.map Resolution.toKeyString).getD ("medium"))

/-- The private readonly TTL of WeatherLayerCache: 5 minutes in milliseconds. -/
def TTL : ℤ := 5 * 60 * 1000

/-- One value of the cache map: the stored response and its Date.now stamp. -/
structure CacheEntry where
  data : WeatherLayerResponse
  timestamp : ℤ
deriving DecidableEq, Repr

/-- The private Map of class WeatherLayerCache, modelled as an association
list with at most one binding per key (set removes the old binding). -/
structure WeatherLayerCache where
  cache : List (String × CacheEntry)
deriving DecidableEq, Repr

/-- WeatherLayerCache.get, with Date.now passed explicitly as now.  Returns
the looked-up value together with the cache state after the call (the entry
is deleted when its age exceeds the TTL). -/
def WeatherLayerCache.get (c : WeatherLayerCache) (now : ℤ)
    (request : WeatherLayerRequest) :
    Option WeatherLayerResponse × WeatherLayerCache :=
  let key := makeKey request
  match c.cache.lookup key with
  | none => (none, c)
  | some cached =>
    if now - cached.timestamp > TTL then
      (none, ⟨c.cache.filter (fun p => p.1 != key)⟩)
    else
      (some cached.data, c)

/-- WeatherLayerCache.set, with Date.now passed explicitly as now. -/
def WeatherLayerCache.set (c : WeatherLayerCache) (now : ℤ)
    (request : WeatherLayerRequest) (data : WeatherLayerResponse) :
    WeatherLayerCache :=
  ⟨(makeKey request, ⟨data, now⟩) :: c.cache.filter (fun p => p.1 != makeKey request)⟩

/-- fetchWeatherLayerCached.  The underlying network call fetchWeatherLayer
is modelled by its outcome fetchResult (a response, or a thrown
WeatherApiError).  Returns the call result, the cache state afterwards, and
whether the underlying fetch was invoked. -/
def fetchWeatherLayerCached (c : WeatherLayerCache) (now : ℤ)
    (request : WeatherLayerRequest)
    (fetchResult : Except WeatherApiError WeatherLayerResponse) :
    Except WeatherApiError WeatherLayerResponse × WeatherLayerCache × Bool :=
  match c.get now request with
  | (some cached, c1) => (Except.ok cached, c1, false)
  | (none, c1) =>
    match fetchResult with
    | Except.ok data => (Except.ok data, c1.set now request data, true)
    | Except.error e => (Except.error e, c1, true)

/-! ### Route API client, from src/frontend/src/services/routeApi.ts -/

/-- Error thrown on route calculation failure, class RouteCalculationError. -/
structure RouteCalculationError where
  message : String
  statusCode : Option ℕ := none
deriving DecidableEq, Repr

/-- The optional options object of calculateRoute; every field may be
undefined. -/
structure CalcOptions where
  vesselSpeed : Option ℚ := none
  waypointsCount : Option ℕ := none
  avoidExtremeWeather : Option Bool := none
  extremeWindThreshold : Option ℚ := none
  extremeWaveThreshold : Option ℚ := none
deriving DecidableEq, Repr

/-- The JSON body the backend answered with on a non-OK status, as far as
calculateRoute reads it: the optional detail field. -/
structure ErrorBody where
  detail : Option String := none
deriving DecidableEq, Repr

/-- An HTTP response the backend delivered: the ok flag, status code,
statusText, the error body (read only on non-OK statuses) and the parsed
JSON body (read only on OK statuses). -/
structure HttpResponse (β : Type) where
  ok : Bool
  status : ℕ
  statusText : String
  errorBody : ErrorBody := {}
  body : β
deriving DecidableEq, Repr

/-- JavaScript x || y on an optional string: the fallback is used when the
string is absent or empty. -/
def jsOrElse (s : Option String) (fallback : String) : String :=
  match s with
  | some v => if v = "" then fallback else v
  | none => fallback

/-- The requestBody object literal built at the top of calculateRoute,
with the ?? defaults of the source. -/
def buildRouteRequest (start «end» : Coordinates) (departureTime : String)
    (options : Option CalcOptions) : RouteRequest :=
  { start := start
    «end» := «end»
    departure_time := departureTime
    vessel_speed := (options.bind CalcOptions.vesselSpeed).getD 15
    waypoints_count := (options.bind CalcOptions.waypointsCount).getD 20
    avoid_extreme_weather := (options.bind CalcOptions.avoidExtremeWeather).getD true
    extreme_wind_threshold := (options.bind CalcOptions.extremeWindThreshold).getD 30
    extreme_wave_threshold := (options.bind CalcOptions.extremeWaveThreshold).getD 5 }

/-- calculateRoute.  departureTime stands for departureTime.toISOString() and
response for the HTTP response the backend returned.  The result carries the
request body that was POSTed together with the outcome: the parsed
RouteResponse on ok, a thrown RouteCalculationError otherwise. -/
def calculateRoute (start «end» : Coordinates) (departureTime : String)
    (options : Option CalcOptions) (response : HttpResponse RouteResponse) :
    RouteRequest × Except RouteCalculationError RouteResponse :=
  let requestBody := buildRouteRequest start «end» departureTime options
  if response.ok then
    (requestBody, Except.ok response.body)
  else
    (requestBody,
      Except.error
        { message := jsOrElse response.errorBody.detail
            ("Failed to calculate route: " ++ response.statusText)
          statusCode := some response.status })

/-- The record returned by getBeaufortScale. -/
structure BeaufortInfo where
  force : ℕ
  name : String
  description : String
deriving DecidableEq, Repr

/-- getBeaufortScale: the if-chain of wind speed bands. -/
def getBeaufortScale (knots : ℚ) : BeaufortInfo :=
  if knots < 1 then ⟨0, "Calm", "Sea like a mirror"⟩
  else if knots < 4 then ⟨1, "Light air", "Ripples without crests"⟩
  else if knots < 7 then ⟨2, "Light breeze", "Small wavelets"⟩
  else if knots < 11 then ⟨3, "Gentle breeze", "Large wavelets"⟩
  else if knots < 17 then ⟨4, "Moderate breeze", "Small waves"⟩
  else if knots < 22 then ⟨5, "Fresh breeze", "Moderate waves"⟩
  else if knots < 28 then ⟨6, "Strong breeze", "Large waves"⟩
  else if knots < 34 then ⟨7, "Near gale", "Sea heaps up"⟩
  else if knots < 41 then ⟨8, "Gale", "Moderately high waves"⟩
  else if knots < 48 then ⟨9, "Strong gale", "High waves"⟩
  else if knots < 56 then ⟨10, "Storm", "Very high waves"⟩
  else if knots < 64 then ⟨11, "Violent storm", "Exceptionally high waves"⟩
  else ⟨12, "Hurricane", "Air filled with foam"⟩

/-! ### Geocoding utilities, from src/frontend/src/services/geocodingApi.ts -/

/-- validateCoordinates: both coordinates within their valid ranges. -/
def validateCoordinates (coords : Coordinates) : Bool :=
  decide (coords.lat ≥ -90) && decide (coords.lat ≤ 90) &&
    decide (coords.lng ≥ -180) && decide (coords.lng ≤ 180)

/-! ### Waypoints table sort, from
src/frontend/src/components/WaypointsTable/WaypointsTable.tsx -/

/-- The SortField union type. -/
inductive SortField where
  | id
  | distance
  | eta
  | wind
  | waves
deriving DecidableEq, Repr

/-- The SortDirection union type. -/
inductive SortDirection where
  | asc
  | desc
deriving DecidableEq, Repr

/-- The comparison value the sort callback computes for one field.  getTime
stands for the composite new Date(eta).getTime(), an arbitrary numeric
reading of the ISO string. -/
def waypointComparison (getTime : String → ℚ) (sortField : SortField)
    (a b : Waypoint) : ℚ :=
  match sortField with
  | .id => a.id - b.id
  | .distance => a.cumulative_distance - b.cumulative_distance
  | .eta => getTime a.eta - getTime b.eta
  | .wind =>
      (a.weather.bind WeatherPoint.wind_speed).getD 0 -
        (b.weather.bind WeatherPoint.wind_speed).getD 0
  | .waves =>
      (a.weather.bind WeatherPoint.wave_height).getD 0 -
        (b.weather.bind WeatherPoint.wave_height).getD 0

/-- The full sort callback: the comparison, negated for descending order. -/
def sortCallback (getTime : String → ℚ) (sortField : SortField)
    (sortDirection : SortDirection) (a b : Waypoint) : ℚ :=
  match sortDirection with
  | .asc => waypointComparison getTime sortField a b
  | .desc => -(waypointComparison getTime sortField a b)

/-- sortedWaypoints: a sorted copy of the list, where element a precedes
element b whenever the callback yields a non-positive value.  Array.sort is
modelled by the stable mergeSort. -/
def sortedWaypoints (getTime : String → ℚ) (sortField : SortField)
    (sortDirection : SortDirection) (waypoints : List Waypoint) :
    List Waypoint :=
  waypoints.mergeSort
    (fun a b => decide (sortCallback getTime sortField sortDirection a b ≤ 0))

/-- The Tailwind class of the wind cell of WaypointRow. -/
def waypointWindClass (wind_speed : ℚ) : String :=
  if wind_speed > 30 then "text-red-500 font-medium"
  else if wind_speed > 20 then "text-yellow-500"
  else ""

/-- The Tailwind class of the waves cell of WaypointRow. -/
def waypointWaveClass (wave_height : ℚ) : String :=
  if wave_height > 5 then "text-red-500 font-medium"
  else if wave_height > 3 then "text-yellow-500"
  else ""

/-! ### Weather top bar, getConditionColor (WeatherTopBar component) -/

/-- The type argument of getConditionColor. -/
inductive ConditionType where
  | wind
  | waves
  | pressure
deriving DecidableEq, Repr

/-- getConditionColor: the color class for a condition, given the optional
weatherData prop.  The JavaScript value || fallback reads are modelled with
getD (both agree, since 0 is falsy). -/
def getConditionColor (weatherData : Option WeatherPoint)
    (t : ConditionType) : String :=
  match weatherData with
  | none => "text-gray-500"
  | some w =>
    match t with
    | .wind =>
      let speed := w.wind_speed.getD 0
      if speed > 30 then "text-red-400"
      else if speed > 20 then "text-yellow-400"
      else "text-green-400"
    | .waves =>
      let height := w.wave_height.getD 0
      if height > 5 then "text-red-400"
      else if height > 3 then "text-yellow-400"
      else "text-green-400"
    | .pressure =>
      let pressure := w.pressure.getD 1013
      if pressure < 1000 ∨ pressure > 1030 then "text-yellow-400"
      else "text-green-400"

/-! ### Weather layers manager, from
src/frontend/src/components/WeatherLayers/WeatherLayersManager.tsx -/

/-- The three per-layer data states of WeatherLayersManager. -/
structure ManagerState where
  windData : List WeatherDataPoint
  wavesData : List WeatherDataPoint
  currentsData : List WeatherDataPoint
deriving DecidableEq, Repr

/-- The outcome of one fetchWeatherForBounds call: the data points of the
response, or a thrown value (carrying its message when it was an Error
instance). -/
inductive FetchOutcome where
  | ok (data_points : List WeatherDataPoint)
  | err (message : Option String)
deriving DecidableEq, Repr

/-- The error text interpolated into the onError string: the message of an
Error instance, otherwise the literal Unknown error. -/
def errorText (message : Option String) : String :=
  message.getD ("Unknown error")

/-- The completion of the wind fetchData effect (not cancelled): on success
the response points are stored, on a caught error windData is cleared and
one onError string is reported.  The other layers' state is untouched
either way. -/
def applyWindFetch (st : ManagerState) (outcome : FetchOutcome) :
    ManagerState × List String :=
  match outcome with
  | .ok pts => ({ st with windData := pts }, [])
  | .err m =>
      ({ st with windData := [] },
        ["Failed to load wind layer: " ++ errorText m])

/-- The completion of the waves fetchData effect (not cancelled). -/
def applyWavesFetch (st : ManagerState) (outcome : FetchOutcome) :
    ManagerState × List String :=
  match outcome with
  | .ok pts => ({ st with wavesData := pts }, [])
  | .err m =>
      ({ st with wavesData := [] },
        ["Failed to load waves layer: " ++ errorText m])

/-- The completion of the currents fetchData effect (not cancelled). -/
def applyCurrentsFetch (st : ManagerState) (outcome : FetchOutcome) :
    ManagerState × List String :=
  match outcome with
  | .ok pts => ({ st with currentsData := pts }, [])
  | .err m =>
      ({ st with currentsData := [] },
        ["Failed to load currents layer: " ++ errorText m])

/-! ### Spec-side definitions used for refinement comparisons -/

/-- The cache key as the spec words it, for comparison with makeKey: built
from the coordinates rounded to a fixed spatial grid (whole degrees, via
Rat.floor) plus the temporal tag and resolution tag.  The timestamp is an
opaque ISO string here, so the temporal grid is the identity on it; the
spatial rounding alone suffices for the comparison. -/
def specGridKey (request : WeatherLayerRequest) :
    LayerType × List ℤ × String × String :=
  (request.layer_type,
    request.bbox.map Rat.floor,
    request.timestamp.getD ("now"),
    (request.resolution.map Resolution.toKeyString).getD ("medium"))

/-- The severity classification rule as the spec words it: danger when the
value exceeds the threshold by more than the fixed 1.5 margin (stated
multiplication-free as 2 * value > 3 * threshold), warning when it exceeds
the threshold at all, info otherwise. -/
def specClassify (value threshold : ℚ) : Severity :=
  if 3 * threshold < 2 * value then .danger
  else if threshold < value then .warning
  else .info

/-- The code's displayed wind severity: the red branch is danger, the
yellow branch warning, the green branch info (shared cutoffs of
getConditionColor and WaypointRow). -/
def displayedWindSeverity (speed : ℚ) : Severity :=
  if speed > 30 then .danger
  else if speed > 20 then .warning
  else .info

/-- The code's displayed waves severity. -/
def displayedWavesSeverity (height : ℚ) : Severity :=
  if height > 5 then .danger
  else if height > 3 then .warning
  else .info

/-! ### Concrete fixtures used by witnesses and counterexamples -/

/-- A concrete weather layer request. -/
def sampleLayerRequest : WeatherLayerRequest :=
  { layer_type := .wind, bbox := [0, 0, 1, 1] }

/-- A concrete weather layer response. -/
def sampleLayerResponse : WeatherLayerResponse :=
  { layer_type := "wind", bbox := [0, 0, 1, 1],
    timestamp := "2024-01-01T00:00:00Z", data_points := [] }

/-- A cache holding sampleLayerResponse under the sample key, stored at
clock value 0. -/
def sampleCache : WeatherLayerCache :=
  ⟨[(makeKey sampleLayerRequest, ⟨sampleLayerResponse, 0⟩)]⟩

/-- Two requests whose west corners differ by a fraction of a degree. -/
def gridRequestA : WeatherLayerRequest :=
  { layer_type := .wind, bbox := [mkRat 1 10, 0, 1, 1] }

/-- Same as gridRequestA up to spatial-grid rounding. -/
def gridRequestB : WeatherLayerRequest :=
  { layer_type := .wind, bbox := [mkRat 2 10, 0, 1, 1] }

/-- A request leaving timestamp and resolution undefined. -/
def keyRequestA : WeatherLayerRequest :=
  { layer_type := .waves, bbox := [0, 0, 1, 1] }

/-- The same request with the default values given explicitly. -/
def keyRequestB : WeatherLayerRequest :=
  { layer_type := .waves, bbox := [0, 0, 1, 1],
    timestamp := some "now", resolution := some .medium }

/-- A concrete route request. -/
def sampleRouteRequest : RouteRequest :=
  buildRouteRequest ⟨104, 1⟩ ⟨4, 52⟩ "2024-01-01T00:00:00.000Z" none

/-- Concrete route metrics. -/
def sampleMetrics : RouteMetrics :=
  { total_distance_nm := 8000, total_distance_km := 14816,
    estimated_duration_hours := 533,
    departure_time := "2024-01-01T00:00:00.000Z",
    arrival_time := "2024-01-23T05:00:00.000Z",
    average_speed_knots := 15, waypoints_adjusted := 0 }

/-- A concrete successful route response body. -/
def sampleRouteResponse : RouteResponse :=
  { request := sampleRouteRequest, waypoints := [], metrics := sampleMetrics,
    warnings := [], algorithm := "simple_great_circle",
    calculated_at := "2024-01-01T00:00:01.000Z" }

/-- An HTTP 200 response delivering sampleRouteResponse. -/
def okResponse : HttpResponse RouteResponse :=
  { ok := true, status := 200, statusText := "OK", body := sampleRouteResponse }

/-- An HTTP 422 response with a detail message. -/
def badResponse : HttpResponse RouteResponse :=
  { ok := false, status := 422, statusText := "Unprocessable Entity",
    errorBody := { detail := some "Invalid request" },
    body := sampleRouteResponse }

/-- Options object supplying every field. -/
def fullOptions : CalcOptions :=
  { vesselSpeed := some 12, waypointsCount := some 33,
    avoidExtremeWeather := some false, extremeWindThreshold := some 40,
    extremeWaveThreshold := some 7 }

/-- A weather point with moderate wind and waves. -/
def sampleWeatherPoint : WeatherPoint :=
  { wind_speed := some 25, wave_height := some 4 }

/-! ### Theorems -/

/-- C7: validateCoordinates accepts a coordinate exactly when its latitude
lies in the range -90 to 90 and its longitude in the range -180 to 180. -/
theorem validateCoordinates_iff_in_range (c : Coordinates) :
    validateCoordinates c = true ↔
      (-90 ≤ c.lat ∧ c.lat ≤ 90 ∧ -180 ≤ c.lng ∧ c.lng ≤ 180) := by
  simp [validateCoordinates, Bool.and_eq_true, decide_eq_true_eq, ge_iff_le,
    and_assoc]

/-- Every branch of the Beaufort if-chain carries a force of at most 12. -/
lemma getBeaufortScale_force_le_twelve (k : ℚ) :
    (getBeaufortScale k).force ≤ 12 := by
  unfold getBeaufortScale
  by_cases h1 : k < 1
  · rw [if_pos h1]; decide
  · rw [if_neg h1]
    by_cases h2 : k < 4
    · rw [if_pos h2]; decide
    · rw [if_neg h2]
      by_cases h3 : k < 7
      · rw [if_pos h3]; decide
      · rw [if_neg h3]
        by_cases h4 : k < 11
        · rw [if_pos h4]; decide
        · rw [if_neg h4]
          by_cases h5 : k < 17
          · rw [if_pos h5]; decide
          · rw [if_neg h5]
            by_cases h6 : k < 22
            · rw [if_pos h6]; decide
            · rw [if_neg h6]
              by_cases h7 : k < 28
              · rw [if_pos h7]; decide
              · rw [if_neg h7]
                by_cases h8 : k < 34
                · rw [if_pos h8]; decide
                · rw [if_neg h8]
                  by_cases h9 : k < 41
                  · rw [if_pos h9]; decide
                  · rw [if_neg h9]
                    by_cases h10 : k < 48
                    · rw [if_pos h10]; decide
                    · rw [if_neg h10]
                      by_cases h11 : k < 56
                      · rw [if_pos h11]; decide
                      · rw [if_neg h11]
                        by_cases h12 : k < 64
                        · rw [if_pos h12]; decide
                        · rw [if_neg h12]

/-- Lower bounds on the Beaufort force: a speed at or beyond a band's lower
threshold is assigned at least that band's force. -/
lemma getBeaufortScale_force_lb (k : ℚ) :
    (1 ≤ k → 1 ≤ (getBeaufortScale k).force) ∧
    (4 ≤ k → 2 ≤ (getBeaufortScale k).force) ∧
    (7 ≤ k → 3 ≤ (getBeaufortScale k).force) ∧
    (11 ≤ k → 4 ≤ (getBeaufortScale k).force) ∧
    (17 ≤ k → 5 ≤ (getBeaufortScale k).force) ∧
    (22 ≤ k → 6 ≤ (getBeaufortScale k).force) ∧
    (28 ≤ k → 7 ≤ (getBeaufortScale k).force) ∧
    (34 ≤ k → 8 ≤ (getBeaufortScale k).force) ∧
    (41 ≤ k → 9 ≤ (getBeaufortScale k).force) ∧
    (48 ≤ k → 10 ≤ (getBeaufortScale k).force) ∧
    (56 ≤ k → 11 ≤ (getBeaufortScale k).force) ∧
    (64 ≤ k → 12 ≤ (getBeaufortScale k).force) := by
  unfold getBeaufortScale
  by_cases h1 : k < 1
  · rw [if_pos h1]
    refine ⟨?_, ?_, ?_, ?_, ?_, ?_, ?_, ?_, ?_, ?_, ?_, ?_⟩ <;>
      · intro hb; first | decide | (exfalso; linarith)
  · rw [if_neg h1]
    by_cases h2 : k < 4
    · rw [if_pos h2]
      refine ⟨?_, ?_, ?_, ?_, ?_, ?_, ?_, ?_, ?_, ?_, ?_, ?_⟩ <;>
        · intro hb; first | decide | (exfalso; linarith)
    · rw [if_neg h2]
      by_cases h3 : k < 7
      · rw [if_pos h3]
        refine ⟨?_, ?_, ?_, ?_, ?_, ?_, ?_, ?_, ?_, ?_, ?_, ?_⟩ <;>
          · intro hb; first | decide | (exfalso; linarith)
      · rw [if_neg h3]
        by_cases h4 : k < 11
        · rw [if_pos h4]
          refine ⟨?_, ?_, ?_, ?_, ?_, ?_, ?_, ?_, ?_, ?_, ?_, ?_⟩ <;>
            · intro hb; first | decide | (exfalso; linarith)
        · rw [if_neg h4]
          by_cases h5 : k < 17
          · rw [if_pos h5]
            refine ⟨?_, ?_, ?_, ?_, ?_, ?_, ?_, ?_, ?_, ?_, ?_, ?_⟩ <;>
              · intro hb; first | decide | (exfalso; linarith)
          · rw [if_neg h5]
            by_cases h6 : k < 22
            · rw [if_pos h6]
              refine ⟨?_, ?_, ?_, ?_, ?_, ?_, ?_, ?_, ?_, ?_, ?_, ?_⟩ <;>
                · intro hb; first | decide | (exfalso; linarith)
            · rw [if_neg h6]
              by_cases h7 : k < 28
              · rw [if_pos h7]
                refine ⟨?_, ?_, ?_, ?_, ?_, ?_, ?_, ?_, ?_, ?_, ?_, ?_⟩ <;>
                  · intro hb; first | decide | (exfalso; linarith)
              · rw [if_neg h7]
                by_cases h8 : k < 34
                · rw [if_pos h8]
                  refine ⟨?_, ?_, ?_, ?_, ?_, ?_, ?_, ?_, ?_, ?_, ?_, ?_⟩ <;>
                    · intro hb; first | decide | (exfalso; linarith)
                · rw [if_neg h8]
                  by_cases h9 : k < 41
                  · rw [if_pos h9]
                    refine ⟨?_, ?_, ?_, ?_, ?_, ?_, ?_, ?_, ?_, ?_, ?_, ?_⟩ <;>
                      · intro hb; first | decide | (exfalso; linarith)
                  · rw [if_neg h9]
                    by_cases h10 : k < 48
                    · rw [if_pos h10]
                      refine ⟨?_, ?_, ?_, ?_, ?_, ?_, ?_, ?_, ?_, ?_, ?_, ?_⟩ <;>
                        · intro hb; first | decide | (exfalso; linarith)
                    · rw [if_neg h10]
                      by_cases h11 : k < 56
                      · rw [if_pos h11]
                        refine ⟨?_, ?_, ?_, ?_, ?_, ?_, ?_, ?_, ?_, ?_, ?_, ?_⟩ <;>
                          · intro hb; first | decide | (exfalso; linarith)
                      · rw [if_neg h11]
                        by_cases h12 : k < 64
                        · rw [if_pos h12]
                          refine ⟨?_, ?_, ?_, ?_, ?_, ?_, ?_, ?_, ?_, ?_, ?_, ?_⟩ <;>
                            · intro hb; first | decide | (exfalso; linarith)
                        · rw [if_neg h12]
                          refine ⟨?_, ?_, ?_, ?_, ?_, ?_, ?_, ?_, ?_, ?_, ?_, ?_⟩ <;>
                            · intro hb; decide

/-- The Beaufort force is monotone in the wind speed. -/
lemma getBeaufortScale_force_mono (k1 k2 : ℚ) (h : k1 ≤ k2) :
    (getBeaufortScale k1).force ≤ (getBeaufortScale k2).force := by
  have hlb := getBeaufortScale_force_lb k2
  set F := (getBeaufortScale k2).force with hF
  unfold getBeaufortScale
  by_cases h1 : k1 < 1
  · rw [if_pos h1]; exact Nat.zero_le F
  · rw [if_neg h1]
    by_cases h2 : k1 < 4
    · rw [if_pos h2]; exact hlb.1 (by linarith)
    · rw [if_neg h2]
      by_cases h3 : k1 < 7
      · rw [if_pos h3]; exact hlb.2.1 (by linarith)
      · rw [if_neg h3]
        by_cases h4 : k1 < 11
        · rw [if_pos h4]; exact hlb.2.2.1 (by linarith)
        · rw [if_neg h4]
          by_cases h5 : k1 < 17
          · rw [if_pos h5]; exact hlb.2.2.2.1 (by linarith)
          · rw [if_neg h5]
            by_cases h6 : k1 < 22
            · rw [if_pos h6]; exact hlb.2.2.2.2.1 (by linarith)
            · rw [if_neg h6]
              by_cases h7 : k1 < 28
              · rw [if_pos h7]; exact hlb.2.2.2.2.2.1 (by linarith)
              · rw [if_neg h7]
                by_cases h8 : k1 < 34
                · rw [if_pos h8]; exact hlb.2.2.2.2.2.2.1 (by linarith)
                · rw [if_neg h8]
                  by_cases h9 : k1 < 41
                  · rw [if_pos h9]; exact hlb.2.2.2.2.2.2.2.1 (by linarith)
                  · rw [if_neg h9]
                    by_cases h10 : k1 < 48
                    · rw [if_pos h10]; exact hlb.2.2.2.2.2.2.2.2.1 (by linarith)
                    · rw [if_neg h10]
                      by_cases h11 : k1 < 56
                      · rw [if_pos h11]; exact hlb.2.2.2.2.2.2.2.2.2.1 (by linarith)
                      · rw [if_neg h11]
                        by_cases h12 : k1 < 64
                        · rw [if_pos h12]; exact hlb.2.2.2.2.2.2.2.2.2.2.1 (by linarith)
                        · rw [if_neg h12]
                          exact hlb.2.2.2.2.2.2.2.2.2.2.2 (by linarith)

/-- C9: getBeaufortScale is total with force at most 12 on every
non-negative wind speed, and the force is monotone in the speed. -/
theorem getBeaufortScale_total_monotone :
    (∀ k : ℚ, 0 ≤ k → (getBeaufortScale k).force ≤ 12) ∧
      (∀ k1 k2 : ℚ, k1 ≤ k2 →
        (getBeaufortScale k1).force ≤ (getBeaufortScale k2).force) :=
  ⟨fun k _ => getBeaufortScale_force_le_twelve k,
    fun k1 k2 h => getBeaufortScale_force_mono k1 k2 h⟩

/-- C9 witness: concrete instances of both conjuncts. -/
theorem getBeaufortScale_total_monotone_witness :
    (getBeaufortScale 10).force ≤ 12 ∧
      (getBeaufortScale 10).force ≤ (getBeaufortScale 33).force :=
  ⟨getBeaufortScale_total_monotone.1 10 (by decide),
    getBeaufortScale_total_monotone.2 10 33 (by decide)⟩

/-- C2: a failed layer fetch clears only that layer's data and reports one
onError message mentioning the layer, while the other layers' data states
are unchanged; a successful fetch stores the received points and reports
nothing.  Every outcome yields a normal state update (no exception escapes
the component). -/
theorem weatherLayers_partial_failure_isolated :
    ∀ (st : ManagerState) (m : Option String)
      (pts : List WeatherDataPoint),
      ((applyWindFetch st (.err m)).1.windData = [] ∧
        (applyWindFetch st (.err m)).1.wavesData = st.wavesData ∧
        (applyWindFetch st (.err m)).1.currentsData = st.currentsData ∧
        (applyWindFetch st (.err m)).2 =
          ["Failed to load wind layer: " ++ errorText m]) ∧
      ((applyWavesFetch st (.err m)).1.wavesData = [] ∧
        (applyWavesFetch st (.err m)).1.windData = st.windData ∧
        (applyWavesFetch st (.err m)).1.currentsData = st.currentsData ∧
        (applyWavesFetch st (.err m)).2 =
          ["Failed to load waves layer: " ++ errorText m]) ∧
      ((applyCurrentsFetch st (.err m)).1.currentsData = [] ∧
        (applyCurrentsFetch st (.err m)).1.windData = st.windData ∧
        (applyCurrentsFetch st (.err m)).1.wavesData = st.wavesData ∧
        (applyCurrentsFetch st (.err m)).2 =
          ["Failed to load currents layer: " ++ errorText m]) ∧
      ((applyWindFetch st (.ok pts)).1.windData = pts ∧
        (applyWindFetch st (.ok pts)).1.wavesData = st.wavesData ∧
        (applyWindFetch st (.ok pts)).1.currentsData = st.currentsData ∧
        (applyWindFetch st (.ok pts)).2 = []) := by
  intro st m pts
  refine ⟨⟨?_, ?_, ?_, ?_⟩, ⟨?_, ?_, ?_, ?_⟩, ⟨?_, ?_, ?_, ?_⟩,
    ⟨?_, ?_, ?_, ?_⟩⟩ <;>
    simp [applyWindFetch, applyWavesFetch, applyCurrentsFetch]

/-- C4: with options omitted, calculateRoute posts a request body carrying
exactly the documented defaults: vessel speed 15, 20 waypoints, extreme
weather avoidance on, wind threshold 30 knots, wave threshold 5 meters;
each supplied option is used unchanged, and each omitted option falls back
to its default. -/
theorem calculateRoute_default_parameters :
    ∀ (start «end» : Coordinates) (departureTime : String)
      (response : HttpResponse RouteResponse),
      ((calculateRoute start «end» departureTime none response).1 =
        { start := start, «end» := «end», departure_time := departureTime,
          vessel_speed := 15, waypoints_count := 20,
          avoid_extreme_weather := true, extreme_wind_threshold := 30,
          extreme_wave_threshold := 5 }) ∧
      (∀ opts : CalcOptions,
        ((∀ v, opts.vesselSpeed = some v →
          (calculateRoute start «end» departureTime (some opts) response).1.vessel_speed = v) ∧
         (opts.vesselSpeed = none →
          (calculateRoute start «end» departureTime (some opts) response).1.vessel_speed = 15)) ∧
        ((∀ n, opts.waypointsCount = some n →
          (calculateRoute start «end» departureTime (some opts) response).1.waypoints_count = n) ∧
         (opts.waypointsCount = none →
          (calculateRoute start «end» departureTime (some opts) response).1.waypoints_count = 20)) ∧
        ((∀ b, opts.avoidExtremeWeather = some b →
          (calculateRoute start «end» departureTime (some opts) response).1.avoid_extreme_weather = b) ∧
         (opts.avoidExtremeWeather = none →
          (calculateRoute start «end» departureTime (some opts) response).1.avoid_extreme_weather = true)) ∧
        ((∀ v, opts.extremeWindThreshold = some v →
          (calculateRoute start «end» departureTime (some opts) response).1.extreme_wind_threshold = v) ∧
         (opts.extremeWindThreshold = none →
          (calculateRoute start «end» departureTime (some opts) response).1.extreme_wind_threshold = 30)) ∧
        ((∀ v, opts.extremeWaveThreshold = some v →
          (calculateRoute start «end» departureTime (some opts) response).1.extreme_wave_threshold = v) ∧
         (opts.extremeWaveThreshold = none →
          (calculateRoute start «end» departureTime (some opts) response).1.extreme_wave_threshold = 5))) := by
  intro start «end» departureTime response
  have hfst : ∀ (o : Option CalcOptions),
      (calculateRoute start «end» departureTime o response).1 =
        buildRouteRequest start «end» departureTime o := by
    intro o
    unfold calculateRoute
    split <;> rfl
  refine ⟨?_, fun opts => ⟨⟨?_, ?_⟩, ⟨?_, ?_⟩, ⟨?_, ?_⟩, ⟨?_, ?_⟩, ⟨?_, ?_⟩⟩⟩
  all_goals intros
  all_goals rw [hfst]
  all_goals simp only [buildRouteRequest, Option.none_bind, Option.some_bind, *,
    Option.getD_some, Option.getD_none]

/-- C4 witness: the defaults at a concrete call, and concrete supplied
values used unchanged. -/
theorem calculateRoute_default_parameters_witness :
    (calculateRoute ⟨104, 1⟩ ⟨4, 52⟩ "2024-01-01T00:00:00.000Z" none okResponse).1 =
      { start := ⟨104, 1⟩, «end» := ⟨4, 52⟩,
        departure_time := "2024-01-01T00:00:00.000Z",
        vessel_speed := 15, waypoints_count := 20,
        avoid_extreme_weather := true, extreme_wind_threshold := 30,
        extreme_wave_threshold := 5 } ∧
    (calculateRoute ⟨104, 1⟩ ⟨4, 52⟩ "2024-01-01T00:00:00.000Z"
        (some fullOptions) okResponse).1.vessel_speed = 12 ∧
    (calculateRoute ⟨104, 1⟩ ⟨4, 52⟩ "2024-01-01T00:00:00.000Z"
        (some fullOptions) okResponse).1.waypoints_count = 33 :=
  ⟨(calculateRoute_default_parameters ⟨104, 1⟩ ⟨4, 52⟩ "2024-01-01T00:00:00.000Z" okResponse).1,
    (((calculateRoute_default_parameters ⟨104, 1⟩ ⟨4, 52⟩ "2024-01-01T00:00:00.000Z" okResponse).2 fullOptions).1.1 12 rfl),
    (((calculateRoute_default_parameters ⟨104, 1⟩ ⟨4, 52⟩ "2024-01-01T00:00:00.000Z" okResponse).2 fullOptions).2.1.1 33 rfl)⟩

/-- C3: calculateRoute propagates a thrown RouteCalculationError carrying
the HTTP status code exactly when the backend response is non-OK; on an OK
response it returns the parsed body, whose warnings list (the only channel
for degraded-weather information) is passed through unchanged. -/
theorem calculateRoute_error_iff_non_ok :
    ∀ (start «end» : Coordinates) (departureTime : String)
      (options : Option CalcOptions) (response : HttpResponse RouteResponse),
      ((∃ err, (calculateRoute start «end» departureTime options response).2 =
          Except.error err) ↔ response.ok = false) ∧
      (∀ err, (calculateRoute start «end» departureTime options response).2 =
          Except.error err → err.statusCode = some response.status) ∧
      (response.ok = true →
        (calculateRoute start «end» departureTime options response).2 =
          Except.ok response.body) ∧
      (∀ r1, (calculateRoute start «end» departureTime options response).2 =
          Except.ok r1 → r1.warnings = response.body.warnings) := by
  intro s en dt o resp
  cases hok : resp.ok with
  | false =>
    refine ⟨?_, ?_, ?_, ?_⟩
    · simp [calculateRoute, hok]
    · intro err he
      simp [calculateRoute, hok] at he
      rw [← he]
    · intro ht
      exact absurd ht (by simp [hok])
    · intro r1 hr
      simp [calculateRoute, hok] at hr
  | true =>
    refine ⟨?_, ?_, ?_, ?_⟩
    · simp [calculateRoute, hok]
    · intro err he
      simp [calculateRoute, hok] at he
    · intro _
      simp [calculateRoute, hok]
    · intro r1 hr
      simp [calculateRoute, hok] at hr
      rw [hr]

/-- C3 witness: concrete OK and non-OK responses. -/
theorem calculateRoute_error_iff_non_ok_witness :
    (calculateRoute ⟨104, 1⟩ ⟨4, 52⟩ "2024-01-01T00:00:00.000Z" none okResponse).2 =
      Except.ok sampleRouteResponse ∧
    (∃ err, (calculateRoute ⟨104, 1⟩ ⟨4, 52⟩ "2024-01-01T00:00:00.000Z" none
        badResponse).2 = Except.error err) :=
  ⟨(calculateRoute_error_iff_non_ok ⟨104, 1⟩ ⟨4, 52⟩ "2024-01-01T00:00:00.000Z"
      none okResponse).2.2.1 rfl,
    (calculateRoute_error_iff_non_ok ⟨104, 1⟩ ⟨4, 52⟩ "2024-01-01T00:00:00.000Z"
      none badResponse).1.mpr rfl⟩

/-- C5 counterexample: with the wind threshold 30 and the 1.5 margin, a
wind speed of 35 knots is only a warning under the rule the spec states,
but the displayed classification (top bar color and waypoint row class)
already shows the danger level; likewise a 6 meter wave against the
threshold 5. -/
theorem displayedSeverity_margin_rule_fails :
    specClassify 35 30 = Severity.warning ∧
    displayedWindSeverity 35 = Severity.danger ∧
    getConditionColor (some { wind_speed := some 35 }) ConditionType.wind =
      "text-red-400" ∧
    waypointWindClass 35 = "text-red-500 font-medium" ∧
    specClassify 6 5 = Severity.warning ∧
    displayedWavesSeverity 6 = Severity.danger ∧
    getConditionColor (some { wave_height := some 6 }) ConditionType.waves =
      "text-red-400" ∧
    waypointWaveClass 6 = "text-red-500 font-medium" := by
  refine ⟨?_, by decide, by decide, by decide, ?_, by decide, by decide, by decide⟩
  · unfold specClassify
    rw [if_neg (by norm_num), if_pos (by norm_num)]
  · unfold specClassify
    rw [if_neg (by norm_num), if_pos (by norm_num)]

/-- C5 amended: the displayed classification marks danger as soon as a
parameter exceeds its threshold at all (wind beyond 30 knots, waves beyond
5 meters) and warning above a separate lower caution cutoff (20 knots, 3
meters), rather than reserving danger for a 1.5 margin beyond the
threshold. -/
theorem displayedSeverity_threshold_rule :
    ∀ (speed height : ℚ) (w : WeatherPoint),
      w.wind_speed = some speed → w.wave_height = some height →
      ((30 < speed →
          getConditionColor (some w) ConditionType.wind = "text-red-400" ∧
          waypointWindClass speed = "text-red-500 font-medium" ∧
          displayedWindSeverity speed = Severity.danger) ∧
        (20 < speed → speed ≤ 30 →
          getConditionColor (some w) ConditionType.wind = "text-yellow-400" ∧
          waypointWindClass speed = "text-yellow-500" ∧
          displayedWindSeverity speed = Severity.warning) ∧
        (speed ≤ 20 →
          getConditionColor (some w) ConditionType.wind = "text-green-400" ∧
          waypointWindClass speed = "" ∧
          displayedWindSeverity speed = Severity.info)) ∧
      ((5 < height →
          getConditionColor (some w) ConditionType.waves = "text-red-400" ∧
          waypointWaveClass height = "text-red-500 font-medium" ∧
          displayedWavesSeverity height = Severity.danger) ∧
        (3 < height → height ≤ 5 →
          getConditionColor (some w) ConditionType.waves = "text-yellow-400" ∧
          waypointWaveClass height = "text-yellow-500" ∧
          displayedWavesSeverity height = Severity.warning) ∧
        (height ≤ 3 →
          getConditionColor (some w) ConditionType.waves = "text-green-400" ∧
          waypointWaveClass height = "" ∧
          displayedWavesSeverity height = Severity.info)) := by
  intro speed height w hw hh
  refine ⟨⟨fun h => ?_, fun h1 h2 => ?_, fun h => ?_⟩,
    ⟨fun h => ?_, fun h1 h2 => ?_, fun h => ?_⟩⟩ <;>
    refine ⟨?_, ?_, ?_⟩ <;>
      simp only [getConditionColor, waypointWindClass, waypointWaveClass,
        displayedWindSeverity, displayedWavesSeverity, hw, hh,
        Option.getD_some, gt_iff_lt]
  · rw [if_pos h]
  · rw [if_pos h]
  · rw [if_pos h]
  · rw [if_neg (by linarith), if_pos h1]
  · rw [if_neg (by linarith), if_pos h1]
  · rw [if_neg (by linarith), if_pos h1]
  · rw [if_neg (by linarith), if_neg (by linarith)]
  · rw [if_neg (by linarith), if_neg (by linarith)]
  · rw [if_neg (by linarith), if_neg (by linarith)]
  · rw [if_pos h]
  · rw [if_pos h]
  · rw [if_pos h]
  · rw [if_neg (by linarith), if_pos h1]
  · rw [if_neg (by linarith), if_pos h1]
  · rw [if_neg (by linarith), if_pos h1]
  · rw [if_neg (by linarith), if_neg (by linarith)]
  · rw [if_neg (by linarith), if_neg (by linarith)]
  · rw [if_neg (by linarith), if_neg (by linarith)]

/-- C5 witness: the amended rule at concrete moderate conditions. -/
theorem displayedSeverity_threshold_rule_witness :
    getConditionColor (some sampleWeatherPoint) ConditionType.wind =
      "text-yellow-400" ∧
    getConditionColor (some sampleWeatherPoint) ConditionType.waves =
      "text-yellow-400" :=
  ⟨((displayedSeverity_threshold_rule 25 4 sampleWeatherPoint rfl rfl).1.2.1
      (by decide) (by decide)).1,
    ((displayedSeverity_threshold_rule 25 4 sampleWeatherPoint rfl rfl).2.2.1
      (by decide) (by decide)).1⟩

/-- C6 counterexample: two requests whose west corners (0.1 and 0.2
degrees) round to the same spatial grid cell nevertheless receive distinct
cache keys, because makeKey interpolates the exact values. -/
theorem makeKey_no_grid_rounding :
    specGridKey gridRequestA = specGridKey gridRequestB ∧
    makeKey gridRequestA ≠ makeKey gridRequestB := by
  decide

/-- C6 amended: the cache key is built from the exact layer type, bbox
values, timestamp (defaulted to the literal now) and resolution (defaulted
to medium): two requests agreeing on those map to the same key, but no
grid rounding is applied to coordinates or timestamp. -/
theorem makeKey_exact_fields :
    ∀ r1 r2 : WeatherLayerRequest,
      r1.layer_type = r2.layer_type →
      r1.bbox = r2.bbox →
      r1.timestamp.getD ("now") = r2.timestamp.getD ("now") →
      (r1.resolution.map Resolution.toKeyString).getD ("medium") =
        (r2.resolution.map Resolution.toKeyString).getD ("medium") →
      makeKey r1 = makeKey r2 := by
  intro r1 r2 h1 h2 h3 h4
  unfold makeKey
  rw [h1, h2, h3, h4]

/-- C6 witness: leaving timestamp and resolution undefined produces the
same key as spelling out their defaults. -/
theorem makeKey_exact_fields_witness :
    makeKey keyRequestA = makeKey keyRequestB :=
  makeKey_exact_fields keyRequestA keyRequestB rfl rfl rfl rfl

/-- Deleting a key from the cache map removes every binding under it. -/
lemma lookup_filter_self (key : String) (l : List (String × CacheEntry)) :
    (l.filter (fun p => p.1 != key)).lookup key = none := by
  induction l with
  | nil => rfl
  | cons a l ih =>
    by_cases h : a.1 = key
    · simpa [List.filter_cons, h] using ih
    · have hk : (key == a.1) = false := beq_eq_false_iff_ne.mpr (Ne.symm h)
      simp [List.filter_cons, List.lookup, h, hk, ih]

/-- Evaluation of WeatherLayerCache.get on a missing key. -/
lemma WeatherLayerCache.get_eq_of_lookup_none (c : WeatherLayerCache)
    (now : ℤ) (r : WeatherLayerRequest)
    (hl : c.cache.lookup (makeKey r) = none) :
    c.get now r = (none, c) := by
  simp [WeatherLayerCache.get, hl]

/-- Evaluation of WeatherLayerCache.get on an expired entry. -/
lemma WeatherLayerCache.get_eq_of_expired (c : WeatherLayerCache)
    (now : ℤ) (r : WeatherLayerRequest) (entry : CacheEntry)
    (hl : c.cache.lookup (makeKey r) = some entry)
    (hexp : now - entry.timestamp > TTL) :
    c.get now r = (none, ⟨c.cache.filter (fun p => p.1 != makeKey r)⟩) := by
  simp [WeatherLayerCache.get, hl, hexp]

/-- Evaluation of WeatherLayerCache.get on a fresh entry. -/
lemma WeatherLayerCache.get_eq_of_fresh (c : WeatherLayerCache)
    (now : ℤ) (r : WeatherLayerRequest) (entry : CacheEntry)
    (hl : c.cache.lookup (makeKey r) = some entry)
    (hfresh : ¬ now - entry.timestamp > TTL) :
    c.get now r = (some entry.data, c) := by
  simp [WeatherLayerCache.get, hl, hfresh]

/-- The entry stored by WeatherLayerCache.set is found by lookup. -/
lemma WeatherLayerCache.lookup_set (c : WeatherLayerCache) (now : ℤ)
    (r : WeatherLayerRequest) (data : WeatherLayerResponse) :
    (c.set now r data).cache.lookup (makeKey r) = some ⟨data, now⟩ := by
  simp [WeatherLayerCache.set, List.lookup]

/-- C1: when the cache has no entry for the request, a successful
fetchWeatherLayerCached invokes the fetch, returns its response, and
stores it; a second call with the same request within the TTL returns the
cached response without invoking the underlying fetch, while a second call
after the TTL has elapsed treats the entry as a miss and invokes the
underlying fetch again. -/
theorem fetchWeatherLayerCached_ttl (c : WeatherLayerCache)
    (r : WeatherLayerRequest) (t0 t1 : ℤ) (d : WeatherLayerResponse)
    (f : Except WeatherApiError WeatherLayerResponse)
    (hmiss : c.cache.lookup (makeKey r) = none) :
    (fetchWeatherLayerCached c t0 r (Except.ok d)).1 = Except.ok d ∧
    (fetchWeatherLayerCached c t0 r (Except.ok d)).2.2 = true ∧
    (t1 - t0 < TTL →
      fetchWeatherLayerCached
          ((fetchWeatherLayerCached c t0 r (Except.ok d)).2.1) t1 r f =
        (Except.ok d, (fetchWeatherLayerCached c t0 r (Except.ok d)).2.1,
          false)) ∧
    (t1 - t0 > TTL →
      (fetchWeatherLayerCached
          ((fetchWeatherLayerCached c t0 r (Except.ok d)).2.1) t1 r f).2.2 =
        true) := by
  have h0 : c.get t0 r = (none, c) :=
    WeatherLayerCache.get_eq_of_lookup_none c t0 r hmiss
  have h1 : fetchWeatherLayerCached c t0 r (Except.ok d) =
      (Except.ok d, c.set t0 r d, true) := by
    unfold fetchWeatherLayerCached
    rw [h0]
  have hl1 : (c.set t0 r d).cache.lookup (makeKey r) = some ⟨d, t0⟩ :=
    WeatherLayerCache.lookup_set c t0 r d
  refine ⟨by rw [h1], by rw [h1], fun hlt => ?_, fun hgt => ?_⟩
  · rw [h1]
    have hget : (c.set t0 r d).get t1 r = (some d, c.set t0 r d) :=
      WeatherLayerCache.get_eq_of_fresh (c.set t0 r d) t1 r ⟨d, t0⟩ hl1
        (not_lt.mpr (le_of_lt hlt))
    unfold fetchWeatherLayerCached
    rw [hget]
  · rw [h1]
    have hget : (c.set t0 r d).get t1 r =
        (none, ⟨(c.set t0 r d).cache.filter (fun p => p.1 != makeKey r)⟩) :=
      WeatherLayerCache.get_eq_of_expired (c.set t0 r d) t1 r ⟨d, t0⟩ hl1 hgt
    unfold fetchWeatherLayerCached
    rw [hget]
    cases f <;> rfl

/-- C1 witness: a fresh fetch at clock 0, a cache hit at clock 1000, and a
renewed fetch at clock 300001 (past the 5 minute TTL). -/
theorem fetchWeatherLayerCached_ttl_witness :
    fetchWeatherLayerCached
        ((fetchWeatherLayerCached ⟨[]⟩ 0 sampleLayerRequest
            (Except.ok sampleLayerResponse)).2.1) 1000 sampleLayerRequest
        (Except.error { message := "network down" }) =
      (Except.ok sampleLayerResponse,
        (fetchWeatherLayerCached ⟨[]⟩ 0 sampleLayerRequest
            (Except.ok sampleLayerResponse)).2.1, false) ∧
    (fetchWeatherLayerCached
        ((fetchWeatherLayerCached ⟨[]⟩ 0 sampleLayerRequest
            (Except.ok sampleLayerResponse)).2.1) 300001 sampleLayerRequest
        (Except.ok sampleLayerResponse)).2.2 = true :=
  ⟨(fetchWeatherLayerCached_ttl ⟨[]⟩ sampleLayerRequest 0 1000
      sampleLayerResponse (Except.error { message := "network down" })
      (by decide)).2.2.1 (by decide),
    (fetchWeatherLayerCached_ttl ⟨[]⟩ sampleLayerRequest 0 300001
      sampleLayerResponse (Except.ok sampleLayerResponse)
      (by decide)).2.2.2 (by decide)⟩

/-- C8 counterexample: an entry whose age equals the TTL exactly is still
returned, so a non-null result of get need not have been stored strictly
less than the TTL ago. -/
theorem cache_get_boundary_age_not_strict :
    (sampleCache.get TTL sampleLayerRequest).1 = some sampleLayerResponse ∧
    ¬ (TTL - (0 : ℤ) < TTL) := by
  constructor
  · decide
  · decide

/-- C8 amended: get never returns stale data in the inclusive sense: a
non-null result was stored at most the TTL ago (the boundary age TTL is
still served) and leaves the cache unchanged; an entry older than the TTL
is deleted and reported as a miss; and after any get call the cache holds
no expired entry under the looked-up key. -/
theorem cache_get_no_stale :
    ∀ (c : WeatherLayerCache) (now : ℤ) (r : WeatherLayerRequest),
      (∀ d c1, c.get now r = (some d, c1) →
        c1 = c ∧ ∃ e : CacheEntry, c.cache.lookup (makeKey r) = some e ∧
          e.data = d ∧ now - e.timestamp ≤ TTL) ∧
      (∀ e : CacheEntry, c.cache.lookup (makeKey r) = some e →
        now - e.timestamp > TTL →
          (c.get now r).1 = none ∧
          (c.get now r).2.cache.lookup (makeKey r) = none) ∧
      (∀ e : CacheEntry, (c.get now r).2.cache.lookup (makeKey r) = some e →
        now - e.timestamp ≤ TTL) := by
  intro c now r
  cases hl : c.cache.lookup (makeKey r) with
  | none =>
    have h0 := WeatherLayerCache.get_eq_of_lookup_none c now r hl
    refine ⟨?_, ?_, ?_⟩
    · intro d c1 hd
      rw [h0] at hd
      exact Option.noConfusion (congrArg Prod.fst hd)
    · intro e he
      exact Option.noConfusion he
    · intro e he
      simp [h0, hl] at he
  | some entry =>
    by_cases hexp : now - entry.timestamp > TTL
    · have h0 := WeatherLayerCache.get_eq_of_expired c now r entry hl hexp
      refine ⟨?_, ?_, ?_⟩
      · intro d c1 hd
        rw [h0] at hd
        exact Option.noConfusion (congrArg Prod.fst hd)
      · intro e he hgt
        rw [h0]
        exact ⟨rfl, lookup_filter_self (makeKey r) c.cache⟩
      · intro e he
        simp [h0, lookup_filter_self] at he
    · have h0 := WeatherLayerCache.get_eq_of_fresh c now r entry hl hexp
      refine ⟨?_, ?_, ?_⟩
      · intro d c1 hd
        rw [h0] at hd
        refine ⟨(congrArg Prod.snd hd).symm, entry, rfl, ?_, not_lt.mp hexp⟩
        exact Option.some.inj (congrArg Prod.fst hd)
      · intro e he hgt
        rw [← Option.some.inj he] at hgt
        exact absurd hgt hexp
      · intro e he
        simp only [h0] at he
        rw [hl] at he
        rw [← Option.some.inj he]
        exact not_lt.mp hexp

/-- C8 witness: the amended bound at the concrete boundary-age cache. -/
theorem cache_get_no_stale_witness :
    ∃ e : CacheEntry,
      sampleCache.cache.lookup (makeKey sampleLayerRequest) = some e ∧
      e.data = sampleLayerResponse ∧ TTL - e.timestamp ≤ TTL :=
  ((cache_get_no_stale sampleCache TTL sampleLayerRequest).1
    sampleLayerResponse sampleCache (by decide)).2

/-- C10: for every sort field and direction the displayed waypoint list is
a permutation of the input (nothing added, dropped, duplicated, or
mutated), and the default sort (field id, ascending) lists waypoints in
ascending id order. -/
theorem sortedWaypoints_perm_and_default_sorted :
    ∀ (getTime : String → ℚ) (sortField : SortField)
      (sortDirection : SortDirection) (waypoints : List Waypoint),
      (sortedWaypoints getTime sortField sortDirection waypoints).Perm
        waypoints ∧
      List.Sorted (fun a b : Waypoint => a.id ≤ b.id)
        (sortedWaypoints getTime SortField.id SortDirection.asc waypoints) := by
  intro getTime sortField sortDirection waypoints
  refine ⟨List.mergeSort_perm waypoints _, ?_⟩
  have htrans : ∀ a b c1 : Waypoint,
      decide (sortCallback getTime SortField.id SortDirection.asc a b ≤ 0) = true →
      decide (sortCallback getTime SortField.id SortDirection.asc b c1 ≤ 0) = true →
      decide (sortCallback getTime SortField.id SortDirection.asc a c1 ≤ 0) = true := by
    intro a b c1 hab hbc
    simp only [decide_eq_true_eq, sortCallback, waypointComparison] at *
    linarith
  have htotal : ∀ a b : Waypoint,
      (decide (sortCallback getTime SortField.id SortDirection.asc a b ≤ 0) ||
        decide (sortCallback getTime SortField.id SortDirection.asc b a ≤ 0)) = true := by
    intro a b
    simp only [Bool.or_eq_true, decide_eq_true_eq, sortCallback,
      waypointComparison]
    rcases le_total a.id b.id with h | h
    · left; linarith
    · right; linarith
  have hs := @List.sorted_mergeSort Waypoint
    (fun a b => decide (sortCallback getTime SortField.id SortDirection.asc a b ≤ 0))
    htrans htotal waypoints
  unfold sortedWaypoints
  refine List.Pairwise.imp ?_ hs
  intro a b hab
  simp only [decide_eq_true_eq, sortCallback, waypointComparison] at hab
  linarith

end ShipsRadar
